import Mathlib

/-!
# Task service and API gateway

A shallow embedding of `task-service/routes/task.js` (the in-memory task
router guarded by `verifyToken`) and of `gateway/server.js` (the path-prefix
proxy with its `onError` handlers), followed by the properties established
about them.

Conventions of the embedding:

* the module-level array `tasks` is a `List Task`, threaded explicitly through
  every handler (`tasks.push` is `++ [task]`, `tasks[i] = v` is `List.set`,
  `tasks.splice(i, 1)` is `List.eraseIdx`);
* a property of the parsed JSON body is a `JsVal`; a property that is not
  present reads as `JsVal.undefined`, exactly as destructuring does;
* `parseInt(req.params.id)` is an `Option Int`, `none` standing for `NaN`
  (which is `===` to nothing);
* every `new Date()` is an explicit clock reading passed to the handler;
* `jwt.verify` is a parameter: `none` when it throws, `some id` for the `id`
  member of the decoded payload.
-/

namespace TaskService

/-! ## JavaScript values -/

/-- A value read from a parsed JSON body. Arrays and objects are kept as their
JSON text; they are truthy whatever they contain. -/
inductive JsVal where
  | undefined
  | null
  | bool (b : Bool)
  | num (n : Int)
  | str (s : String)
  | composite (json : String)
  deriving DecidableEq

namespace JsVal

/-- JavaScript `ToBoolean`: what `!v`, `v || w` and `if (v)` test. -/
def truthy : JsVal → Bool
  | undefined => false
  | null => false
  | bool b => b
  | num n => n != 0
  | str s => s != ""
  | composite _ => true

/-- The expression `a || b`. -/
def or (a b : JsVal) : JsVal := if a.truthy then a else b

/-- The expression `a !== undefined ? a : b`. -/
def orIfUndefined (a b : JsVal) : JsVal :=
  match a with
  | undefined => b
  | v => v

/-- A property that is either not present or a text value: the shape the
request body `{title, description?, status?}` is documented to have. -/
def IsTextOrAbsent (v : JsVal) : Prop := v = undefined ∨ ∃ s, v = str s

end JsVal

/-! ## Data model -/

/-- The identity carried by a decoded token (`req.user.id`). -/
abbrev UserId := String

/-- A task object as built by `router.post('/')`. -/
structure Task where
  id : Nat
  userId : UserId
  title : JsVal
  description : JsVal
  status : JsVal
  createdAt : Nat
  updatedAt : Nat
  deriving DecidableEq

/-- The three properties the handlers destructure from `req.body`. -/
structure TaskBody where
  title : JsVal
  description : JsVal
  status : JsVal
  deriving DecidableEq

/-- The JSON documents the task router sends. -/
inductive Payload where
  | error (error : String)
  | tasks (tasks : List Task)
  | task (task : Task)
  | messageTask (message : String) (task : Task)
  | message (message : String)
  deriving DecidableEq

/-- An HTTP response: status code and JSON payload. -/
structure Response where
  status : Nat
  body : Payload
  deriving DecidableEq

/-- The array `tasks`. -/
abbrev Store := List Task

/-! ## `verifyToken` -/

/-- The call `s.split(' ')` on the characters of `s`. -/
def splitSpace : List Char → List (List Char)
  | [] => [[]]
  | c :: cs =>
    if c = ' ' then [] :: splitSpace cs
    else
      match splitSpace cs with
      | [] => [[c]]
      | w :: ws => (c :: w) :: ws

/-- The expression `req.headers.authorization?.split(' ')[1]`; `none` is `undefined`. -/
def bearerToken (authorization : Option String) : Option String :=
  match authorization with
  | none => none
  | some h => ((splitSpace h.data).get? 1).map String.mk

/-- The middleware `verifyToken`. `Except.error r` is a response sent without
calling `next()`; `Except.ok id` is `req.user = decoded; next()`. -/
def verifyToken (jwtVerify : String → Option UserId) (authorization : Option String) :
    Except Response UserId :=
  match bearerToken authorization with
  | none => .error ⟨401, .error "No token provided"⟩
  | some token =>
    if token = "" then .error ⟨401, .error "No token provided"⟩
    else
      match jwtVerify token with
      | none => .error ⟨401, .error "Invalid token"⟩
      | some user => .ok user

/-- A route registered as `router.METHOD(path, verifyToken, handler)`: the
handler runs only when `verifyToken` calls `next()`. -/
def guarded {σ : Type} (jwtVerify : String → Option UserId)
    (handler : UserId → σ → σ × Response) (authorization : Option String) (s : σ) :
    σ × Response :=
  match verifyToken jwtVerify authorization with
  | .error r => (s, r)
  | .ok user => handler user s

/-! ## Route handlers -/

/-- The predicate `t => t.id === parseInt(req.params.id) && t.userId === req.user.id`. -/
def matchesTask (pid : Option Int) (user : UserId) (t : Task) : Bool :=
  decide (pid = some (t.id : Int)) && decide (t.userId = user)

/-- The method `Array.prototype.findIndex`; `none` is `-1`. -/
def findIndex (p : Task → Bool) : List Task → Option Nat
  | [] => none
  | t :: ts => if p t then some 0 else (findIndex p ts).map (· + 1)

/-- The method `Array.prototype.find`; `none` is `undefined`. -/
def find (p : Task → Bool) : List Task → Option Task
  | [] => none
  | t :: ts => if p t then some t else find p ts

/-- The handler of `router.get('/')`. -/
def getTasks (user : UserId) (tasks : Store) : Store × Response :=
  (tasks, ⟨200, .tasks (tasks.filter fun task => decide (task.userId = user))⟩)

/-- The handler of `router.get('/:id')`. -/
def getTask (pid : Option Int) (user : UserId) (tasks : Store) : Store × Response :=
  match find (matchesTask pid user) tasks with
  | none => (tasks, ⟨404, .error "Task not found"⟩)
  | some task => (tasks, ⟨200, .task task⟩)

/-- The handler of `router.post('/')`; `now₁` and `now₂` are the two
`new Date()` readings, in evaluation order. -/
def postTask (body : TaskBody) (now₁ now₂ : Nat) (user : UserId) (tasks : Store) :
    Store × Response :=
  if !body.title.truthy then (tasks, ⟨400, .error "Title is required"⟩)
  else
    let task : Task :=
      { id := tasks.length + 1
        userId := user
        title := body.title
        description := body.description.or (.str "")
        status := body.status.or (.str "pending")
        createdAt := now₁
        updatedAt := now₂ }
    (tasks ++ [task], ⟨201, .messageTask "Task created successfully" task⟩)

/-- The object literal assigned to `tasks[taskIndex]` by `router.put('/:id')`. -/
def updatedTask (old : Task) (body : TaskBody) (now : Nat) : Task :=
  { old with
    title := body.title.or old.title
    description := body.description.orIfUndefined old.description
    status := body.status.or old.status
    updatedAt := now }

/-- The handler of `router.put('/:id')`. The index returned by `findIndex` is
always in range; reading a missing element would throw inside the `try` and be
answered by the `catch` branch. -/
def putTask (pid : Option Int) (body : TaskBody) (now : Nat) (user : UserId) (tasks : Store) :
    Store × Response :=
  match findIndex (matchesTask pid user) tasks with
  | none => (tasks, ⟨404, .error "Task not found"⟩)
  | some taskIndex =>
    match tasks.get? taskIndex with
    | none => (tasks, ⟨500, .error "Internal server error"⟩)
    | some old =>
      let task := updatedTask old body now
      (tasks.set taskIndex task, ⟨200, .messageTask "Task updated successfully" task⟩)

/-- The handler of `router.delete('/:id')`. -/
def deleteTask (pid : Option Int) (user : UserId) (tasks : Store) : Store × Response :=
  match findIndex (matchesTask pid user) tasks with
  | none => (tasks, ⟨404, .error "Task not found"⟩)
  | some taskIndex =>
    (tasks.eraseIdx taskIndex, ⟨200, .message "Task deleted successfully"⟩)

/-! ## The router -/

/-- The five routes of the task router with the request data each one reads. -/
inductive Route where
  | list
  | get (pid : Option Int)
  | create (body : TaskBody) (now₁ now₂ : Nat)
  | update (pid : Option Int) (body : TaskBody) (now : Nat)
  | delete (pid : Option Int)
  deriving DecidableEq

/-- The handler registered for a route. -/
def Route.handler : Route → UserId → Store → Store × Response
  | .list => getTasks
  | .get pid => getTask pid
  | .create body now₁ now₂ => postTask body now₁ now₂
  | .update pid body now => putTask pid body now
  | .delete pid => deleteTask pid

/-- The router: every route is guarded by `verifyToken`. -/
def router (jwtVerify : String → Option UserId) (authorization : Option String)
    (route : Route) (tasks : Store) : Store × Response :=
  guarded jwtVerify route.handler authorization tasks

/-! ## Sequences of mutating operations -/

/-- A mutating request by a verified identity. -/
structure Op where
  user : UserId
  route : Route
  deriving DecidableEq

/-- One request handled against the store. -/
def step (tasks : Store) (op : Op) : Store × Response :=
  op.route.handler op.user tasks

/-- The store after a sequence of requests. -/
def run (tasks : Store) (ops : List Op) : Store :=
  ops.foldl (fun s op => (step s op).1) tasks

/-- The responses to a sequence of requests, in order. -/
def responses (tasks : Store) : List Op → List Response
  | [] => []
  | op :: ops => (step tasks op).2 :: responses (step tasks op).1 ops

/-- A store state the process can be in: the result of some sequence of
requests from the empty array. Reads are included; they leave the array as it is. -/
def Reachable (tasks : Store) : Prop := ∃ ops, run [] ops = tasks

/-- The id carried by the response to a successful create, if that is what the
response is. -/
def Response.createdId (r : Response) : Option Nat :=
  match r.status, r.body with
  | 201, .messageTask _ t => some t.id
  | _, _ => none

/-- The ids handed out by the successful creates of a sequence, in order. -/
def assignedIds (tasks : Store) (ops : List Op) : List Nat :=
  (responses tasks ops).filterMap Response.createdId

end TaskService

namespace Gateway

/-! ## The gateway application

`cors()` and `express.json()` come from libraries; what they do with a request
is a parameter (`Front`). Reaching a backend is a parameter too (`forward`):
it either relays the backend's response or reports the transport error that
the proxy library hands to `onError`. -/

/-- The members of `process.env` the gateway reads. -/
structure Env where
  AUTH_SERVICE_URL : Option String
  TASK_SERVICE_URL : Option String
  NODE_ENV : Option String
  deriving DecidableEq

/-- An inbound request: `req.method` and `req.path`. -/
structure Request where
  method : String
  path : String
  deriving DecidableEq

/-- The JSON documents the gateway sends, a relayed backend body, and the
absence of a body. -/
inductive Payload where
  | health (status service timestamp : String)
  | info (message : String) (endpoints : List (String × String))
  | error (error message : String)
  | relayed (raw : String)
  | empty
  deriving DecidableEq

/-- An HTTP response: status code and body. -/
structure Response where
  status : Nat
  body : Payload
  deriving DecidableEq

/-- The error object given to `onError` and to the error-handling middleware. -/
structure TransportError where
  message : String
  code : String
  deriving DecidableEq

/-- What the library middleware in front of the routes did with a request. -/
inductive Front where
  | next
  | respond (r : Response)
  | fail (err : TransportError)
  deriving DecidableEq

/-- The result of one proxied attempt. -/
inductive ProxyOutcome where
  | relayed (r : Response)
  | failed (err : TransportError)
  deriving DecidableEq

/-- The expression `process.env.X || fallback` for an environment variable. -/
def envOr (v : Option String) (fallback : String) : String :=
  match v with
  | none => fallback
  | some s => if s = "" then fallback else s

/-- ASCII case folding, as a route pattern compiled with the `i` flag compares. -/
def lower (cs : List Char) : List Char := cs.map Char.toLower

/-- Matching of a route path registered with `app.get`: the pattern
`^base\/?$`, case-insensitive, where `base` is the route without its final
slash. -/
def matchesRoute (base path : String) : Bool :=
  lower path.data == base.data || lower path.data == base.data ++ ['/']

/-- Matching of a mount path registered with `app.use(prefix, ...)`: the
pattern `^prefix\/?(?=\/|$)`, case-insensitive. -/
def matchesMount (pfx path : String) : Bool :=
  lower (path.data.take pfx.data.length) == pfx.data &&
    (match path.data.drop pfx.data.length with
     | [] => true
     | c :: _ => c == '/')

/-- Routes registered with `app.get` answer `GET` and `HEAD`. -/
def isGet (method : String) : Bool := method == "GET" || method == "HEAD"

/-- The handler of `app.get('/health')`; `now` is `new Date().toISOString()`. -/
def health (now : String) : Response :=
  ⟨200, .health "healthy" "api-gateway" now⟩

/-- The handler of `app.get('/')`. -/
def root : Response :=
  ⟨200, .info "API Gateway - Secure MERN Microservices 🚀"
    [("auth", "/api/auth/*"), ("tasks", "/api/tasks/*"), ("health", "/health")]⟩

/-- The `onError` option of the auth proxy. -/
def authOnError (_err : TransportError) (_req : Request) : Response :=
  ⟨503, .error "Auth service unavailable" "Please try again later"⟩

/-- The `onError` option of the task proxy. -/
def taskOnError (_err : TransportError) (_req : Request) : Response :=
  ⟨503, .error "Task service unavailable" "Please try again later"⟩

/-- A middleware made by `createProxyMiddleware`: one attempt at `target`;
the backend's response is relayed, a transport error goes to `onError`. -/
def proxyMiddleware (forward : String → Request → ProxyOutcome) (target : String)
    (onError : TransportError → Request → Response) (req : Request) : Response :=
  match forward target req with
  | .relayed r => r
  | .failed err => onError err req

/-- The 404 handler. -/
def notFound (req : Request) : Response :=
  ⟨404, .error "Not found" ("Route " ++ req.path ++ " not found")⟩

/-- The error-handling middleware. -/
def errorHandler (env : Env) (err : TransportError) : Response :=
  ⟨500, .error "Internal server error"
    (if env.NODE_ENV = some "development" then err.message else "Something went wrong")⟩

/-- The two proxied backends. -/
inductive Backend where
  | auth
  | tasks
  deriving DecidableEq

/-- The mount path of a backend's proxy. -/
def Backend.mount : Backend → String
  | .auth => "/api/auth"
  | .tasks => "/api/tasks"

/-- The `target` option of a backend's proxy. -/
def Backend.target (env : Env) : Backend → String
  | .auth => envOr env.AUTH_SERVICE_URL "http://localhost:5001"
  | .tasks => envOr env.TASK_SERVICE_URL "http://localhost:5002"

/-- The `onError` option of a backend's proxy. -/
def Backend.onError : Backend → TransportError → Request → Response
  | .auth => authOnError
  | .tasks => taskOnError

/-- The application: middleware and routes in registration order. -/
def gateway (env : Env) (now : String) (front : Request → Front)
    (forward : String → Request → ProxyOutcome) (req : Request) : Response :=
  match front req with
  | .respond r => r
  | .fail err => errorHandler env err
  | .next =>
    if isGet req.method && matchesRoute "/health" req.path then health now
    else if isGet req.method && matchesRoute "" req.path then root
    else if matchesMount Backend.auth.mount req.path then
      proxyMiddleware forward (Backend.auth.target env) Backend.auth.onError req
    else if matchesMount Backend.tasks.mount req.path then
      proxyMiddleware forward (Backend.tasks.target env) Backend.tasks.onError req
    else notFound req

end Gateway

namespace TaskService

/-! ## Vocabulary of the statements -/

/-- A request that carries no credential: no `Authorization` header, a header
without a space (a scheme and nothing else), or a header whose first space is
followed by nothing or by another space (an empty token after the scheme). -/
def NoToken (authorization : Option String) : Prop :=
  authorization = none ∨
    ∃ h, authorization = some h ∧
      (' ' ∉ h.data ∨
        ∃ scheme rest, h.data = scheme ++ ' ' :: rest ∧ ' ' ∉ scheme ∧
          (rest = [] ∨ ∃ r, rest = ' ' :: r))

/-- A body that supplies a title and nothing else. -/
def titled (title : String) : TaskBody := ⟨.str title, .undefined, .undefined⟩

/-- The task of the partial-update example: title `A`, description `B`,
status `pending`. -/
def taskA : Task := ⟨1, "u1", .str "A", .str "B", .str "pending", 5, 5⟩

/-- A create followed by an update that supplies an empty title. -/
def trace₀ : List Op :=
  [⟨"u1", .create (titled "a") 1 1⟩,
   ⟨"u1", .update (some 1) ⟨.str "", .str "", .undefined⟩ 2⟩]

/-- Two creates, a delete of the first task, and a third create, all by `u1`. -/
def reuseTrace : List Op :=
  [⟨"u1", .create (titled "a") 1 1⟩,
   ⟨"u1", .create (titled "b") 2 2⟩,
   ⟨"u1", .delete (some 1)⟩,
   ⟨"u1", .create (titled "c") 3 3⟩]

/-- The first three requests of `reuseTrace`. -/
def reuseHead : List Op := reuseTrace.take 3

/-- The identity `A` creates a task, `B` creates one, `A` deletes its own and
creates another. -/
def sharedIdTrace : List Op :=
  [⟨"A", .create (titled "a") 1 1⟩,
   ⟨"B", .create (titled "b") 2 2⟩,
   ⟨"A", .delete (some 1)⟩,
   ⟨"A", .create (titled "c") 3 3⟩]

/-- The task `u1` created second in `reuseTrace`. -/
def taskB : Task := ⟨2, "u1", .str "b", .str "", .str "pending", 2, 2⟩

/-- The task `u1` created last in `reuseTrace`. -/
def taskC : Task := ⟨2, "u1", .str "c", .str "", .str "pending", 3, 3⟩

end TaskService

namespace Gateway

/-- An environment with no variable set. -/
def emptyEnv : Env := ⟨none, none, none⟩

/-- A network on which every attempt is refused. -/
def refused : String → Request → ProxyOutcome :=
  fun _ _ => .failed ⟨"connect ECONNREFUSED 127.0.0.1:5002", "ECONNREFUSED"⟩

/-- The middleware `cors()` in front of the routes: it ends an `OPTIONS`
request itself with status 204 and no body, and passes every other request on. -/
def preflightFront : Request → Front :=
  fun req => if req.method = "OPTIONS" then .respond ⟨204, .empty⟩ else .next

/-- The middleware `express.json()` in front of the routes, on a request whose
JSON body does not parse: the parse error goes to the error-handling middleware. -/
def malformedFront : Request → Front :=
  fun _ => .fail ⟨"Unexpected end of JSON input", "entity.parse.failed"⟩

end Gateway

/-! # Properties -/

namespace TaskService

/-! ## Lookups in the array -/

theorem findIndex_eq_none {p : Task → Bool} {l : List Task} :
    findIndex p l = none ↔ ∀ t ∈ l, p t = false := by
  induction l with
  | nil => simp [findIndex]
  | cons a l ih =>
    by_cases h : p a = true
    · simp [findIndex, h]
    · simp [findIndex, h, ih]

theorem find_eq_none {p : Task → Bool} {l : List Task} :
    find p l = none ↔ ∀ t ∈ l, p t = false := by
  induction l with
  | nil => simp [find]
  | cons a l ih =>
    by_cases h : p a = true
    · simp [find, h]
    · simp [find, h, ih]

theorem find_append_of_first {p : Task → Bool} (pre post : List Task) (t : Task)
    (hpre : ∀ x ∈ pre, p x = false) (ht : p t = true) :
    find p (pre ++ t :: post) = some t := by
  induction pre with
  | nil => simp [find, ht]
  | cons a l ih =>
    have ha : p a = false := hpre a (by simp)
    simp only [List.cons_append, find, ha]
    exact ih (fun x hx => hpre x (by simp [hx]))

theorem findIndex_append_of_first {p : Task → Bool} (pre post : List Task) (t : Task)
    (hpre : ∀ x ∈ pre, p x = false) (ht : p t = true) :
    findIndex p (pre ++ t :: post) = some pre.length := by
  induction pre with
  | nil => simp [findIndex, ht]
  | cons a l ih =>
    have ha : p a = false := hpre a (by simp)
    have hl := ih (fun x hx => hpre x (by simp [hx]))
    simp [findIndex, ha, hl]

theorem findIndex_some_split {p : Task → Bool} {l : List Task} {i : Nat}
    (h : findIndex p l = some i) :
    ∃ pre t post, l = pre ++ t :: post ∧ pre.length = i ∧ p t = true ∧
      ∀ x ∈ pre, p x = false := by
  induction l generalizing i with
  | nil => simp [findIndex] at h
  | cons a l ih =>
    by_cases ha : p a = true
    · simp [findIndex, ha] at h
      exact ⟨[], a, l, by simp, by simpa using h, ha, by simp⟩
    · simp only [findIndex, ha] at h
      cases hl : findIndex p l with
      | none => simp [hl] at h
      | some j =>
        simp [hl] at h
        obtain ⟨pre, t, post, rfl, hlen, ht, hpre⟩ := ih hl
        refine ⟨a :: pre, t, post, by simp, by simp [hlen, h], ht, ?_⟩
        intro x hx
        rcases List.mem_cons.1 hx with rfl | hx
        · simpa using ha
        · exact hpre x hx

theorem find_some {p : Task → Bool} {l : List Task} {t : Task} (h : find p l = some t) :
    t ∈ l ∧ p t = true := by
  induction l with
  | nil => simp [find] at h
  | cons a l ih =>
    by_cases ha : p a = true
    · simp [find, ha] at h
      subst h
      exact ⟨by simp, ha⟩
    · simp only [find, ha] at h
      have := ih h
      exact ⟨by simp [this.1], this.2⟩

theorem get?_length_append (pre post : List Task) (t : Task) :
    (pre ++ t :: post).get? pre.length = some t := by
  induction pre with
  | nil => rfl
  | cons a l ih => simpa using ih

theorem set_length_append (pre post : List Task) (t t' : Task) :
    (pre ++ t :: post).set pre.length t' = pre ++ t' :: post := by
  induction pre with
  | nil => rfl
  | cons a l ih => simp [List.set, ih]

theorem eraseIdx_length_append (pre post : List Task) (t : Task) :
    (pre ++ t :: post).eraseIdx pre.length = pre ++ post := by
  induction pre with
  | nil => rfl
  | cons a l ih => simp [List.eraseIdx, ih]

theorem truthy_ne_empty {v : JsVal} (h : v.truthy = true) :
    v ≠ .str "" ∧ v ≠ .undefined := by
  constructor <;> rintro rfl <;> simp [JsVal.truthy] at h

theorem truthy_or {a b : JsVal} (h : b.truthy = true) : (a.or b).truthy = true := by
  unfold JsVal.or
  by_cases ha : a.truthy = true
  · simp [ha]
  · simp [ha, h]

theorem truthy_str {s : String} : (JsVal.str s).truthy = true ↔ s ≠ "" := by
  simp [JsVal.truthy]

theorem putTask_of_none {pid : Option Int} {user : UserId} {tasks : Store}
    (h : findIndex (matchesTask pid user) tasks = none) (body : TaskBody) (now : Nat) :
    putTask pid body now user tasks = (tasks, ⟨404, .error "Task not found"⟩) := by
  simp only [putTask, h]

theorem putTask_of_missing {pid : Option Int} {user : UserId} {tasks : Store} {i : Nat}
    (h : findIndex (matchesTask pid user) tasks = some i) (hg : tasks.get? i = none)
    (body : TaskBody) (now : Nat) :
    putTask pid body now user tasks = (tasks, ⟨500, .error "Internal server error"⟩) := by
  simp only [putTask, h, hg]

theorem putTask_of_some {pid : Option Int} {user : UserId} {tasks : Store} {i : Nat}
    {old : Task} (h : findIndex (matchesTask pid user) tasks = some i)
    (hg : tasks.get? i = some old) (body : TaskBody) (now : Nat) :
    putTask pid body now user tasks =
      (tasks.set i (updatedTask old body now),
        ⟨200, .messageTask "Task updated successfully" (updatedTask old body now)⟩) := by
  simp only [putTask, h, hg]

theorem deleteTask_of_none {pid : Option Int} {user : UserId} {tasks : Store}
    (h : findIndex (matchesTask pid user) tasks = none) :
    deleteTask pid user tasks = (tasks, ⟨404, .error "Task not found"⟩) := by
  simp only [deleteTask, h]

theorem deleteTask_of_some {pid : Option Int} {user : UserId} {tasks : Store} {i : Nat}
    (h : findIndex (matchesTask pid user) tasks = some i) :
    deleteTask pid user tasks =
      (tasks.eraseIdx i, ⟨200, .message "Task deleted successfully"⟩) := by
  simp only [deleteTask, h]

/-- The handlers keep every stored title truthy. -/
theorem step_titles (tasks : Store) (op : Op)
    (h : ∀ t ∈ tasks, t.title.truthy = true) :
    ∀ t ∈ (step tasks op).1, t.title.truthy = true := by
  obtain ⟨user, route⟩ := op
  cases route with
  | list => simpa [step, Route.handler, getTasks] using h
  | get pid =>
    simp only [step, Route.handler, getTask]
    cases find (matchesTask pid user) tasks <;> simpa using h
  | create body now₁ now₂ =>
    simp only [step, Route.handler, postTask]
    by_cases hb : body.title.truthy = true
    · simp only [hb, Bool.not_true, Bool.false_eq_true, if_false]
      intro t ht
      rcases List.mem_append.1 ht with ht | ht
      · exact h t ht
      · simp at ht
        subst ht
        exact hb
    · simpa [hb] using h
  | update pid body now =>
    simp only [step, Route.handler]
    cases hi : findIndex (matchesTask pid user) tasks with
    | none => rw [putTask_of_none hi]; exact h
    | some i =>
      cases hg : tasks.get? i with
      | none => rw [putTask_of_missing hi hg body now]; exact h
      | some old =>
        rw [putTask_of_some hi hg body now]
        intro t ht
        rcases List.mem_or_eq_of_mem_set ht with ht | rfl
        · exact h t ht
        · exact truthy_or (h old (List.get?_mem hg))
  | delete pid =>
    simp only [step, Route.handler]
    cases hi : findIndex (matchesTask pid user) tasks with
    | none => rw [deleteTask_of_none hi]; exact h
    | some i =>
      rw [deleteTask_of_some hi]
      intro t ht
      exact h t (List.mem_of_mem_eraseIdx ht)

theorem run_titles (ops : List Op) (tasks : Store)
    (h : ∀ t ∈ tasks, t.title.truthy = true) :
    ∀ t ∈ run tasks ops, t.title.truthy = true := by
  induction ops generalizing tasks with
  | nil => simpa [run] using h
  | cons op ops ih =>
    simp only [run, List.foldl_cons]
    exact ih _ (step_titles tasks op h)

/-- C10. In every store reached from the empty array by any sequence of
requests, with arbitrary bodies and identities, every stored task has a title
that is truthy; in particular it is neither the empty string nor absent. -/
theorem stored_title_nonempty (ops : List Op) (t : Task) (ht : t ∈ run [] ops) :
    t.title.truthy = true ∧ t.title ≠ .str "" ∧ t.title ≠ .undefined := by
  have h := run_titles ops [] (by simp) t ht
  exact ⟨h, truthy_ne_empty h⟩

theorem stored_title_nonempty_witness :
    (⟨1, "u1", .str "a", .str "", .str "pending", 1, 2⟩ : Task) ∈ run [] trace₀ ∧
    (JsVal.str "a").truthy = true ∧ JsVal.str "a" ≠ .str "" ∧ JsVal.str "a" ≠ .undefined :=
  ⟨by decide, stored_title_nonempty trace₀ ⟨1, "u1", .str "a", .str "", .str "pending", 1, 2⟩ (by decide)⟩

/-- C3. For every store and identity, List answers 200, leaves the store as it
is, and returns exactly the stored tasks whose owner is that identity: the
filter of the array by owner, hence a subsequence of the array in array
(insertion) order, in which no task is owned by another identity. -/
theorem list_returns_own_tasks (user : UserId) (tasks : Store) :
    (getTasks user tasks).1 = tasks ∧
    ∃ listed, (getTasks user tasks).2 = ⟨200, .tasks listed⟩ ∧
      listed = tasks.filter (fun t => decide (t.userId = user)) ∧
      listed.Sublist tasks ∧
      (∀ t, t ∈ listed ↔ t ∈ tasks ∧ t.userId = user) ∧
      (∀ t ∈ listed, ∀ other : UserId, other ≠ user → t.userId ≠ other) := by
  refine ⟨rfl, _, rfl, rfl, List.filter_sublist _, ?_, ?_⟩
  · intro t; simp [List.mem_filter]
  · intro t ht other hne
    simp [List.mem_filter] at ht
    rw [ht.2]; exact fun h => hne h.symm

theorem truthy_of_text_ne_empty {v : JsVal} (hv : v.IsTextOrAbsent) :
    v.truthy = false ↔ (v = .undefined ∨ v = .str "") := by
  rcases hv with rfl | ⟨s, rfl⟩
  · simp [JsVal.truthy]
  · simp [JsVal.truthy]

theorem or_of_undefined (b : JsVal) : JsVal.or .undefined b = b := by
  simp [JsVal.or, JsVal.truthy]

theorem or_of_truthy {a : JsVal} (b : JsVal) (h : a.truthy = true) : a.or b = a := by
  simp [JsVal.or, h]

theorem orIfUndefined_of_ne {a : JsVal} (b : JsVal) (h : a ≠ .undefined) :
    a.orIfUndefined b = a := by
  cases a <;> simp [JsVal.orIfUndefined] at h ⊢

/-- For a title that is text or absent, Create answers 400 and leaves the
store unchanged exactly when the title is absent or the empty string (the body
is then `Title is required`); otherwise it answers 201 and appends one task at
the end of the array, with the next id, owned by the caller, carrying the
title, with description `""` and status `"pending"` when they are not supplied
(and the supplied value when it is non-empty), `createdAt` and `updatedAt`
being the two clock readings taken while the task is built. -/
theorem create_contract_of_text (body : TaskBody) (now₁ now₂ : Nat) (user : UserId) (tasks : Store)
    (hT : body.title.IsTextOrAbsent) :
    (((postTask body now₁ now₂ user tasks).2.status = 400 ∧
        (postTask body now₁ now₂ user tasks).1 = tasks) ↔
      (body.title = .undefined ∨ body.title = .str "")) ∧
    ((body.title = .undefined ∨ body.title = .str "") →
      postTask body now₁ now₂ user tasks = (tasks, ⟨400, .error "Title is required"⟩)) ∧
    (¬ (body.title = .undefined ∨ body.title = .str "") →
      ∃ t : Task,
        postTask body now₁ now₂ user tasks =
          (tasks ++ [t], ⟨201, .messageTask "Task created successfully" t⟩) ∧
        t.id = tasks.length + 1 ∧ t.userId = user ∧ t.title = body.title ∧
        (body.description = .undefined → t.description = .str "") ∧
        (body.status = .undefined → t.status = .str "pending") ∧
        (body.description.truthy = true → t.description = body.description) ∧
        (body.status.truthy = true → t.status = body.status) ∧
        t.createdAt = now₁ ∧ t.updatedAt = now₂) := by
  have key := truthy_of_text_ne_empty hT
  by_cases hb : body.title.truthy = true
  · have hne : ¬ (body.title = .undefined ∨ body.title = .str "") := by
      rw [← key]; simp [hb]
    have hpost : postTask body now₁ now₂ user tasks =
        (tasks ++ [⟨tasks.length + 1, user, body.title, body.description.or (.str ""),
            body.status.or (.str "pending"), now₁, now₂⟩],
          ⟨201, .messageTask "Task created successfully"
            ⟨tasks.length + 1, user, body.title, body.description.or (.str ""),
              body.status.or (.str "pending"), now₁, now₂⟩⟩) := by
      simp [postTask, hb]
    refine ⟨?_, fun h => absurd h hne, fun _ => ⟨_, hpost, rfl, rfl, rfl, ?_, ?_, ?_, ?_, rfl, rfl⟩⟩
    · rw [hpost]
      constructor
      · rintro ⟨h, _⟩; simp at h
      · intro h; exact absurd h hne
    · intro h; simp [h, or_of_undefined]
    · intro h; simp [h, or_of_undefined]
    · intro h; exact or_of_truthy _ h
    · intro h; exact or_of_truthy _ h
  · have hf : body.title.truthy = false := by simpa using hb
    have hpost : postTask body now₁ now₂ user tasks =
        (tasks, ⟨400, .error "Title is required"⟩) := by
      simp [postTask, hf]
    have he := key.1 hf
    exact ⟨by rw [hpost]; simp [he], fun _ => hpost, fun h => absurd he h⟩

/-- C4 (counterexample). A body whose title is the number 0 is answered 400 with
the store unchanged, although the title is present and is not the empty
string: "400 exactly when the title is empty or absent" fails there. -/
theorem create_rejects_zero_title :
    postTask ⟨.num 0, .undefined, .undefined⟩ 7 7 "u1" [] =
      ([], ⟨400, .error "Title is required"⟩) ∧
    JsVal.num 0 ≠ .undefined ∧ JsVal.num 0 ≠ .str "" ∧
    ¬ (((postTask ⟨.num 0, .undefined, .undefined⟩ 7 7 "u1" []).2.status = 400 ∧
          (postTask ⟨.num 0, .undefined, .undefined⟩ 7 7 "u1" []).1 = []) ↔
        (JsVal.num 0 = .undefined ∨ JsVal.num 0 = .str "")) := by
  decide

/-- C4 (amended). For every store, identity and body, Create answers 400 and
leaves the store unchanged exactly when the title is falsy, that is absent,
`null`, `false`, `0` or the empty string (the body is then `Title is
required`); otherwise it answers 201 and appends one task at the end of the
array, with the next id, owned by the caller, carrying the given title, with
description `""` and status `"pending"` when they are not supplied (the value
is `description || ''` and `status || 'pending'`), `createdAt` and `updatedAt`
being the two clock readings taken while the task is built. -/
theorem create_contract (body : TaskBody) (now₁ now₂ : Nat) (user : UserId) (tasks : Store) :
    (((postTask body now₁ now₂ user tasks).2.status = 400 ∧
        (postTask body now₁ now₂ user tasks).1 = tasks) ↔ body.title.truthy = false) ∧
    (body.title.truthy = false ↔
      (body.title = .undefined ∨ body.title = .null ∨ body.title = .bool false ∨
        body.title = .num 0 ∨ body.title = .str "")) ∧
    (body.title.truthy = false →
      postTask body now₁ now₂ user tasks = (tasks, ⟨400, .error "Title is required"⟩)) ∧
    (body.title.truthy = true →
      ∃ t : Task,
        postTask body now₁ now₂ user tasks =
          (tasks ++ [t], ⟨201, .messageTask "Task created successfully" t⟩) ∧
        t.id = tasks.length + 1 ∧ t.userId = user ∧ t.title = body.title ∧
        t.description = body.description.or (.str "") ∧
        t.status = body.status.or (.str "pending") ∧
        (body.description = .undefined → t.description = .str "") ∧
        (body.status = .undefined → t.status = .str "pending") ∧
        (body.description.truthy = true → t.description = body.description) ∧
        (body.status.truthy = true → t.status = body.status) ∧
        t.createdAt = now₁ ∧ t.updatedAt = now₂) := by
  have hfalsy : body.title.truthy = false ↔
      (body.title = .undefined ∨ body.title = .null ∨ body.title = .bool false ∨
        body.title = .num 0 ∨ body.title = .str "") := by
    cases body.title <;> simp [JsVal.truthy]
  by_cases hb : body.title.truthy = true
  · have hpost : postTask body now₁ now₂ user tasks =
        (tasks ++ [⟨tasks.length + 1, user, body.title, body.description.or (.str ""),
            body.status.or (.str "pending"), now₁, now₂⟩],
          ⟨201, .messageTask "Task created successfully"
            ⟨tasks.length + 1, user, body.title, body.description.or (.str ""),
              body.status.or (.str "pending"), now₁, now₂⟩⟩) := by
      simp [postTask, hb]
    refine ⟨?_, hfalsy, fun h => by simp [hb] at h,
      fun _ => ⟨_, hpost, rfl, rfl, rfl, rfl, rfl, ?_, ?_, ?_, ?_, rfl, rfl⟩⟩
    · rw [hpost]
      constructor
      · rintro ⟨h, _⟩; simp at h
      · intro h; simp [hb] at h
    · intro h; simp [h, or_of_undefined]
    · intro h; simp [h, or_of_undefined]
    · intro h; exact or_of_truthy _ h
    · intro h; exact or_of_truthy _ h
  · have hf : body.title.truthy = false := by simpa using hb
    have hpost : postTask body now₁ now₂ user tasks =
        (tasks, ⟨400, .error "Title is required"⟩) := by
      simp [postTask, hf]
    exact ⟨by rw [hpost]; simp [hf], hfalsy, fun _ => hpost, fun h => absurd h hb⟩

/-- The frame of a successful Update. Whenever an Update addresses a stored
task owned by the caller, the
array splits as `pre ++ old :: post` where `old` is the task the lookup
resolves to (the first with that id and owner); the update answers 200 and
the array becomes `pre ++ t :: post`: every other task and the order are
unchanged, `t` keeps the id, owner and `createdAt` of `old`, `updatedAt` is the
clock reading, each of title, description and status that is absent keeps its
prior value, a supplied non-empty title or status replaces the prior value,
and any supplied description, the empty string included, replaces it. -/
theorem update_frame (pid : Option Int) (body : TaskBody) (now : Nat) (user : UserId)
    (tasks : Store) (hTarget : ∃ x ∈ tasks, pid = some (x.id : Int) ∧ x.userId = user) :
    ∃ (pre post : Store) (old t : Task),
      tasks = pre ++ old :: post ∧
      pid = some (old.id : Int) ∧ old.userId = user ∧
      (∀ x ∈ pre, ¬ (pid = some (x.id : Int) ∧ x.userId = user)) ∧
      putTask pid body now user tasks =
        (pre ++ t :: post, ⟨200, .messageTask "Task updated successfully" t⟩) ∧
      t.id = old.id ∧ t.userId = old.userId ∧ t.createdAt = old.createdAt ∧
      t.updatedAt = now ∧
      (body.title = .undefined → t.title = old.title) ∧
      (body.description = .undefined → t.description = old.description) ∧
      (body.status = .undefined → t.status = old.status) ∧
      (∀ s, s ≠ "" → body.title = .str s → t.title = .str s) ∧
      (∀ s, s ≠ "" → body.status = .str s → t.status = .str s) ∧
      (body.description ≠ .undefined → t.description = body.description) := by
  cases hi : findIndex (matchesTask pid user) tasks with
  | none =>
    obtain ⟨x, hx, hid, hu⟩ := hTarget
    have := findIndex_eq_none.1 hi x hx
    simp [matchesTask, hid, hu] at this
  | some i =>
    obtain ⟨pre, old, post, rfl, hlen, hold, hpre⟩ := findIndex_some_split hi
    subst hlen
    have hold2 : pid = some (old.id : Int) ∧ old.userId = user := by
      simpa [matchesTask] using hold
    have hput := putTask_of_some hi (get?_length_append pre post old) body now
    rw [set_length_append] at hput
    refine ⟨pre, post, old, updatedTask old body now, rfl, hold2.1, hold2.2, ?_, hput,
      rfl, rfl, rfl, rfl, ?_, ?_, ?_, ?_, ?_, ?_⟩
    · intro x hx
      have := hpre x hx
      simpa [matchesTask] using this
    · intro h; simp [updatedTask, h, or_of_undefined]
    · intro h; simp [updatedTask, h, JsVal.orIfUndefined]
    · intro h; simp [updatedTask, h, or_of_undefined]
    · intro s hs h
      simp only [updatedTask, h]
      exact or_of_truthy _ (truthy_str.2 hs)
    · intro s hs h
      simp only [updatedTask, h]
      exact or_of_truthy _ (truthy_str.2 hs)
    · intro h; exact orIfUndefined_of_ne _ h

theorem update_frame_witness :
    (∃ x ∈ [taskA], some (1 : Int) = some (x.id : Int) ∧ x.userId = "u1") ∧
    ∃ (pre post : Store) (old t : Task),
      [taskA] = pre ++ old :: post ∧
      some (1 : Int) = some (old.id : Int) ∧ old.userId = "u1" ∧
      (∀ x ∈ pre, ¬ (some (1 : Int) = some (x.id : Int) ∧ x.userId = "u1")) ∧
      putTask (some 1) ⟨.undefined, .undefined, .str "done"⟩ 9 "u1" [taskA] =
        (pre ++ t :: post, ⟨200, .messageTask "Task updated successfully" t⟩) ∧
      t.id = old.id ∧ t.userId = old.userId ∧ t.createdAt = old.createdAt ∧
      t.updatedAt = 9 ∧
      ((JsVal.undefined : JsVal) = .undefined → t.title = old.title) ∧
      ((JsVal.undefined : JsVal) = .undefined → t.description = old.description) ∧
      (JsVal.str "done" = .undefined → t.status = old.status) ∧
      (∀ s, s ≠ "" → (JsVal.undefined : JsVal) = .str s → t.title = .str s) ∧
      (∀ s, s ≠ "" → JsVal.str "done" = .str s → t.status = .str s) ∧
      ((JsVal.undefined : JsVal) ≠ .undefined → t.description = (JsVal.undefined : JsVal)) :=
  ⟨⟨taskA, by simp, rfl, rfl⟩,
    update_frame (some 1) ⟨.undefined, .undefined, .str "done"⟩ 9 "u1" [taskA]
      ⟨taskA, by simp, rfl, rfl⟩⟩

/-! ## verifyToken -/

theorem splitSpace_of_no_space (l : List Char) (h : ' ' ∉ l) : splitSpace l = [l] := by
  induction l with
  | nil => rfl
  | cons c cs ih =>
    have hc : c ≠ ' ' := fun e => h (by simp [e])
    have hcs : ' ' ∉ cs := fun e => h (by simp [e])
    simp [splitSpace, hc, ih hcs]

theorem splitSpace_scheme (scheme rest : List Char) (h : ' ' ∉ scheme) :
    splitSpace (scheme ++ ' ' :: rest) = scheme :: splitSpace rest := by
  induction scheme with
  | nil => simp [splitSpace]
  | cons c cs ih =>
    have hc : c ≠ ' ' := fun e => h (by simp [e])
    have hcs : ' ' ∉ cs := fun e => h (by simp [e])
    simp [splitSpace, hc, ih hcs]

theorem bearerToken_of_noToken {authorization : Option String} (h : NoToken authorization) :
    bearerToken authorization = none ∨ bearerToken authorization = some "" := by
  rcases h with rfl | ⟨hdr, rfl, h | ⟨scheme, rest, hd, hs, hr⟩⟩
  · exact Or.inl rfl
  · left
    simp [bearerToken, splitSpace_of_no_space _ h]
  · right
    rcases hr with rfl | ⟨r, rfl⟩
    · simp [bearerToken, hd, splitSpace_scheme _ _ hs, splitSpace]
    · simp [bearerToken, hd, splitSpace_scheme _ _ hs, splitSpace]

/-- C8. A request without credential (no `Authorization` header, or no token
after the scheme) is answered 401 `No token provided` by `verifyToken`: the
outcome of a guarded route is the same for every handler, so no handler runs,
and for each of the five routes of the router the store is left unchanged. -/
theorem missing_credential_rejected (jwtVerify : String → Option UserId)
    (authorization : Option String) (h : NoToken authorization) :
    verifyToken jwtVerify authorization = .error ⟨401, .error "No token provided"⟩ ∧
    (∀ (σ : Type) (handler : UserId → σ → σ × Response) (s : σ),
      guarded jwtVerify handler authorization s = (s, ⟨401, .error "No token provided"⟩)) ∧
    (∀ (route : Route) (tasks : Store),
      router jwtVerify authorization route tasks =
        (tasks, ⟨401, .error "No token provided"⟩)) := by
  have hv : verifyToken jwtVerify authorization =
      .error ⟨401, .error "No token provided"⟩ := by
    rcases bearerToken_of_noToken h with hb | hb <;> simp [verifyToken, hb]
  refine ⟨hv, ?_, ?_⟩
  · intro σ handler s
    simp only [guarded, hv]
  · intro route tasks
    simp only [router, guarded, hv]

theorem missing_credential_rejected_witness :
    NoToken (some "Bearer ") ∧
    verifyToken (fun _ => some "u1") (some "Bearer ") =
      .error ⟨401, .error "No token provided"⟩ ∧
    (∀ (σ : Type) (handler : UserId → σ → σ × Response) (s : σ),
      guarded (fun _ => some "u1") handler (some "Bearer ") s =
        (s, ⟨401, .error "No token provided"⟩)) ∧
    (∀ (route : Route) (tasks : Store),
      router (fun _ => some "u1") (some "Bearer ") route tasks =
        (tasks, ⟨401, .error "No token provided"⟩)) :=
  ⟨Or.inr ⟨"Bearer ", rfl, Or.inr ⟨"Bearer".data, [], rfl, by decide, Or.inl rfl⟩⟩,
    missing_credential_rejected (fun _ => some "u1") (some "Bearer ")
      (Or.inr ⟨"Bearer ", rfl, Or.inr ⟨"Bearer".data, [], rfl, by decide, Or.inl rfl⟩⟩)⟩

end TaskService

namespace TaskService

/-! ## Identifier allocation -/

/-- A lookup by an identity that owns no stored task with the requested id
finds nothing, whoever else owns a task with that id. -/
theorem not_found_of_no_own_task (pid : Option Int) (user : UserId) (tasks : Store)
    (body : TaskBody) (now : Nat)
    (h : ∀ x ∈ tasks, ¬ (pid = some (x.id : Int) ∧ x.userId = user)) :
    getTask pid user tasks = (tasks, ⟨404, .error "Task not found"⟩) ∧
    putTask pid body now user tasks = (tasks, ⟨404, .error "Task not found"⟩) ∧
    deleteTask pid user tasks = (tasks, ⟨404, .error "Task not found"⟩) := by
  have hp : ∀ x ∈ tasks, matchesTask pid user x = false := by
    intro x hx
    have := h x hx
    simpa [matchesTask] using this
  have hf := find_eq_none.2 hp
  have hi := findIndex_eq_none.2 hp
  exact ⟨by simp only [getTask, hf], putTask_of_none hi body now, deleteTask_of_none hi⟩

/-- When no stored task already carries the id that a create is about to hand
out, reading that id back as the creator returns the created task. -/
theorem get_after_create_of_fresh (body : TaskBody) (now₁ now₂ : Nat) (user : UserId)
    (tasks : Store) (hTitle : body.title.truthy = true)
    (hFresh : ∀ x ∈ tasks, x.id ≠ tasks.length + 1) :
    ∃ t, (postTask body now₁ now₂ user tasks).2 =
        ⟨201, .messageTask "Task created successfully" t⟩ ∧
      (getTask (some (t.id : Int)) user (postTask body now₁ now₂ user tasks).1).2 =
        ⟨200, .task t⟩ := by
  refine ⟨⟨tasks.length + 1, user, body.title, body.description.or (.str ""),
    body.status.or (.str "pending"), now₁, now₂⟩, by simp [postTask, hTitle], ?_⟩
  have hpost : (postTask body now₁ now₂ user tasks).1 =
      tasks ++ [⟨tasks.length + 1, user, body.title, body.description.or (.str ""),
        body.status.or (.str "pending"), now₁, now₂⟩] := by
    simp [postTask, hTitle]
  rw [hpost]
  have hfind := find_append_of_first
    (p := matchesTask (some ((tasks.length + 1 : Nat) : Int)) user) tasks []
    ⟨tasks.length + 1, user, body.title, body.description.or (.str ""),
      body.status.or (.str "pending"), now₁, now₂⟩
    (by
      intro x hx
      have := hFresh x hx
      simp only [matchesTask, Bool.and_eq_false_iff, decide_eq_false_iff_not]
      left
      intro e
      exact this (by exact_mod_cast (Option.some.inj e).symm))
    (by simp [matchesTask])
  simp only [getTask, hfind]

/-- When stored ids are pairwise distinct, a deleted task cannot be read back. -/
theorem get_after_delete_of_nodup (pid : Option Int) (user : UserId) (tasks : Store)
    (hNodup : (tasks.map (·.id)).Nodup)
    (hDel : (deleteTask pid user tasks).2.status = 200) :
    (getTask pid user (deleteTask pid user tasks).1).2 = ⟨404, .error "Task not found"⟩ := by
  cases hi : findIndex (matchesTask pid user) tasks with
  | none => rw [deleteTask_of_none hi] at hDel; simp at hDel
  | some i =>
    obtain ⟨pre, old, post, rfl, hlen, hold, _⟩ := findIndex_some_split hi
    subst hlen
    rw [deleteTask_of_some hi, eraseIdx_length_append]
    have hold2 : pid = some (old.id : Int) ∧ old.userId = user := by
      simpa [matchesTask] using hold
    have hnot : ∀ x ∈ pre ++ post, matchesTask pid user x = false := by
      intro x hx
      simp only [matchesTask, Bool.and_eq_false_iff, decide_eq_false_iff_not]
      left
      rw [hold2.1]
      intro e
      have hid : old.id = x.id := by exact_mod_cast Option.some.inj e
      simp only [List.map_append, List.map_cons] at hNodup
      have hn := List.nodup_middle.1 hNodup
      have hx2 : x.id ∈ pre.map (·.id) ++ post.map (·.id) := by
        rw [← List.map_append]; exact List.mem_map_of_mem _ hx
      rw [List.nodup_cons] at hn
      exact hn.1 (hid ▸ hx2)
    simp only [getTask, find_eq_none.2 hnot]

/-- C1 (defect). After `reuseTrace` the third create hands out id 2, the id the
second create had already assigned: the assigned ids are not strictly
increasing. -/
theorem id_reused_after_delete :
    (responses [] reuseTrace).map (·.status) = [201, 201, 200, 201] ∧
    assignedIds [] reuseTrace = [1, 2, 2] ∧
    ¬ (assignedIds [] reuseTrace).Pairwise (· < ·) := by
  decide

/-- C2 (defect). After `sharedIdTrace` the stored task owned by `B` has id 2 and so
has a task owned by `A`; requests by `A` with id 2 are answered 200, while id
99, which no task has, is answered 404. -/
theorem foreign_id_answered_200 :
    run [] sharedIdTrace =
      [⟨2, "B", .str "b", .str "", .str "pending", 2, 2⟩,
       ⟨2, "A", .str "c", .str "", .str "pending", 3, 3⟩] ∧
    (getTask (some 2) "A" (run [] sharedIdTrace)).2.status = 200 ∧
    (getTask (some 99) "A" (run [] sharedIdTrace)).2 = ⟨404, .error "Task not found"⟩ ∧
    (putTask (some 2) (titled "x") 4 "A" (run [] sharedIdTrace)).2.status = 200 ∧
    (deleteTask (some 2) "A" (run [] sharedIdTrace)).2.status = 200 ∧
    (deleteTask (some 2) "A" (run [] sharedIdTrace)).1 ≠ run [] sharedIdTrace := by
  decide

/-- C5 (defect). In the store reached by `reuseTrace`, `taskC` is stored and owned
by `u1`; an Update by `u1` addressed to the id of `taskC` that supplies the
title `x` answers 200, leaves `taskC` with its old title and rewrites `taskB`,
another stored task, instead. -/
theorem update_skips_duplicate :
    run [] reuseTrace = [taskB, taskC] ∧
    taskC ∈ run [] reuseTrace ∧ taskC.userId = "u1" ∧
    putTask (some (taskC.id : Int)) (titled "x") 4 "u1" (run [] reuseTrace) =
      ([⟨2, "u1", .str "x", .str "", .str "pending", 2, 4⟩, taskC],
        ⟨200, .messageTask "Task updated successfully"
          ⟨2, "u1", .str "x", .str "", .str "pending", 2, 4⟩⟩) ∧
    taskC.title = .str "c" ∧
    taskB ∉ (putTask (some (taskC.id : Int)) (titled "x") 4 "u1" (run [] reuseTrace)).1 := by
  decide

/-- C6 (defect). In the store reached by `reuseHead`, a create by `u1` returns
`taskC` with id 2, and reading id 2 back as `u1` returns `taskB`, an older task
with the same id. -/
theorem get_after_create_returns_other_task :
    run [] reuseHead = [taskB] ∧
    (postTask (titled "c") 3 3 "u1" (run [] reuseHead)).2 =
      ⟨201, .messageTask "Task created successfully" taskC⟩ ∧
    (getTask (some (taskC.id : Int)) "u1"
      (postTask (titled "c") 3 3 "u1" (run [] reuseHead)).1).2 = ⟨200, .task taskB⟩ ∧
    taskB ≠ taskC := by
  decide

/-- C7 (defect). In the store reached by `reuseTrace`, deleting id 2 as `u1`
succeeds with 200, and reading id 2 as `u1` right after is answered 200 with
`taskC`, not 404. -/
theorem get_after_delete_still_found :
    run [] reuseTrace = [taskB, taskC] ∧
    (deleteTask (some 2) "u1" (run [] reuseTrace)).2 =
      ⟨200, .message "Task deleted successfully"⟩ ∧
    (getTask (some 2) "u1" (deleteTask (some 2) "u1" (run [] reuseTrace)).1).2 =
      ⟨200, .task taskC⟩ := by
  decide

end TaskService

namespace Gateway

theorem lower_take (n : Nat) (l : List Char) : lower (l.take n) = (lower l).take n := by
  simp [lower, List.map_take]

theorem mount_auth_lower {path : String} (h : matchesMount "/api/auth" path = true) :
    (lower path.data).take 9 = "/api/auth".data := by
  simp only [matchesMount, Bool.and_eq_true, beq_iff_eq] at h
  have h1 := h.1
  rw [lower_take] at h1
  exact h1

theorem mount_tasks_lower {path : String} (h : matchesMount "/api/tasks" path = true) :
    (lower path.data).take 10 = "/api/tasks".data := by
  simp only [matchesMount, Bool.and_eq_true, beq_iff_eq] at h
  have h1 := h.1
  rw [lower_take] at h1
  exact h1

theorem route_ne_of_take {base path : String} {n : Nat} {p : List Char}
    (h : (lower path.data).take n = p)
    (h1 : base.data.take n ≠ p) (h2 : (base.data ++ ['/']).take n ≠ p) :
    matchesRoute base path = false := by
  simp only [matchesRoute, Bool.or_eq_false_iff, beq_eq_false_iff_ne, ne_eq]
  constructor
  · intro e; rw [e] at h; exact h1 h
  · intro e; rw [e] at h; exact h2 h

theorem tasks_not_auth {path : String} (h : matchesMount "/api/tasks" path = true) :
    matchesMount "/api/auth" path = false := by
  have h10 := mount_tasks_lower h
  by_contra hc
  have h9 := mount_auth_lower (by simpa using hc)
  have : ((lower path.data).take 10).take 9 = (lower path.data).take 9 := by
    rw [List.take_take]; rfl
  rw [h10, h9] at this
  exact absurd this (by decide)

/-- The gateway answers a failed attempt on a mounted backend with that
backend's fixed 503 document. -/
theorem gateway_of_failed (env : Env) (now : String) (front : Request → Front)
    (forward : String → Request → ProxyOutcome) (req : Request) (backend : Backend)
    (err : TransportError)
    (hFront : front req = .next)
    (hPath : matchesMount backend.mount req.path = true)
    (hDown : forward (backend.target env) req = .failed err) :
    gateway env now front forward req = backend.onError err req := by
  cases backend with
  | auth =>
    have h9 := mount_auth_lower hPath
    have hh : matchesRoute "/health" req.path = false :=
      route_ne_of_take h9 (by decide) (by decide)
    have hr : matchesRoute "" req.path = false :=
      route_ne_of_take h9 (by decide) (by decide)
    simp only [Backend.mount] at hPath
    simp [gateway, hFront, hh, hr, Backend.mount, hPath, proxyMiddleware, hDown,
      Backend.onError, authOnError]
  | tasks =>
    have h10 := mount_tasks_lower hPath
    have hh : matchesRoute "/health" req.path = false :=
      route_ne_of_take h10 (by decide) (by decide)
    have hr : matchesRoute "" req.path = false :=
      route_ne_of_take h10 (by decide) (by decide)
    have ha := tasks_not_auth hPath
    simp only [Backend.mount] at hPath
    simp [gateway, hFront, hh, hr, Backend.mount, hPath, ha, proxyMiddleware, hDown,
      Backend.onError, taskOnError]

/-- C9 (counterexample). With every backend unreachable, an `OPTIONS` request
under `/api/tasks` is answered 204 by the middleware in front of the routes,
and a request under `/api/auth` whose body does not parse is answered 500 by
the error-handling middleware: neither reaches its proxy, neither is answered
503. -/
theorem front_answers_before_proxy :
    matchesMount Backend.tasks.mount "/api/tasks" = true ∧
    refused (Backend.tasks.target emptyEnv) ⟨"OPTIONS", "/api/tasks"⟩ =
      .failed ⟨"connect ECONNREFUSED 127.0.0.1:5002", "ECONNREFUSED"⟩ ∧
    gateway emptyEnv "" preflightFront refused ⟨"OPTIONS", "/api/tasks"⟩ = ⟨204, .empty⟩ ∧
    (gateway emptyEnv "" preflightFront refused ⟨"OPTIONS", "/api/tasks"⟩).status ≠ 503 ∧
    matchesMount Backend.auth.mount "/api/auth/login" = true ∧
    gateway emptyEnv "" malformedFront refused ⟨"POST", "/api/auth/login"⟩ =
      ⟨500, .error "Internal server error" "Something went wrong"⟩ ∧
    (gateway emptyEnv "" malformedFront refused ⟨"POST", "/api/auth/login"⟩).status ≠ 503 := by
  decide

/-- C9 (amended). When a request under `/api/auth` or `/api/tasks` is passed on by
the middleware in front of the routes, so that it reaches its proxy, and
the attempt on the mapped backend fails, the gateway answers 503 with a
document that names the backend (the auth and the task document differ) and
that is the same whatever the transport error, the environment (and so the
backend address) and the network are. -/
theorem unreachable_backend_503 (env : Env) (now : String) (front : Request → Front)
    (forward : String → Request → ProxyOutcome) (req : Request) (backend : Backend)
    (err : TransportError)
    (hFront : front req = .next)
    (hPath : matchesMount backend.mount req.path = true)
    (hDown : forward (backend.target env) req = .failed err) :
    (gateway env now front forward req).status = 503 ∧
    gateway env now front forward req = backend.onError err req ∧
    Backend.auth.onError err req =
      ⟨503, .error "Auth service unavailable" "Please try again later"⟩ ∧
    Backend.tasks.onError err req =
      ⟨503, .error "Task service unavailable" "Please try again later"⟩ ∧
    Backend.auth.onError err req ≠ Backend.tasks.onError err req ∧
    (∀ (env₂ : Env) (forward₂ : String → Request → ProxyOutcome) (err₂ : TransportError),
      forward₂ (backend.target env₂) req = .failed err₂ →
      gateway env₂ now front forward₂ req = gateway env now front forward req) := by
  have h := gateway_of_failed env now front forward req backend err hFront hPath hDown
  refine ⟨?_, h, rfl, rfl, by simp [Backend.onError, authOnError, taskOnError], ?_⟩
  · rw [h]; cases backend <;> rfl
  · intro env₂ forward₂ err₂ h₂
    rw [h, gateway_of_failed env₂ now front forward₂ req backend err₂ hFront hPath h₂]
    cases backend <;> rfl

theorem unreachable_backend_503_witness :
    matchesMount Backend.tasks.mount "/api/tasks" = true ∧
    (gateway emptyEnv "" (fun _ => .next) refused ⟨"GET", "/api/tasks"⟩).status = 503 ∧
    gateway emptyEnv "" (fun _ => .next) refused ⟨"GET", "/api/tasks"⟩ =
      ⟨503, .error "Task service unavailable" "Please try again later"⟩ :=
  have h := unreachable_backend_503 emptyEnv "" (fun _ => .next) refused
    ⟨"GET", "/api/tasks"⟩ .tasks
    ⟨"connect ECONNREFUSED 127.0.0.1:5002", "ECONNREFUSED"⟩ rfl (by decide) rfl
  ⟨by decide, h.1, h.2.1⟩

end Gateway
